import Mathlib

/-!
Shallow embedding of `src/static/script.js`, the browser-side client of a
small activity sign-up service.  The script has three operations:
`loadActivities` (fetch and render the activity list), `displayActivities`
(render activity cards into the container) and `signUp` (validate an email
and POST a sign-up request).  DOM effects are modelled as explicit data:
the container's content is a `ContainerState`, and `signUp` produces a
trace of `Event`s (alerts shown, requests posted, reloads triggered).
Network interaction is modelled by passing the (possibly failed) response
as an argument; `none` stands for a rejected fetch, and a `none` parsed
body stands for `response.json()` throwing.
-/

/-- An activity record as delivered by `GET /activities`.  `participants`
and `current_participants` are `Option` because a JavaScript object may
lack either field (`undefined`); the script reads both. -/
structure Activity where
  description : String
  schedule : String
  max_participants : Int
  participants : Option (List String)
  current_participants : Option Int
deriving Repr, DecidableEq

/-- The participants section of a rendered card: either a `<ul>` of emails
(from `details.participants.map(...)`) or the "No participants yet"
placeholder paragraph. -/
inductive ParticipantsSection where
  | list (emails : List String)
  | placeholder
deriving Repr, DecidableEq

/-- One rendered activity card: the data interpolated into the card's
`innerHTML` template, plus the sign-up button's target activity name. -/
structure Card where
  name : String
  description : String
  schedule : String
  capacityShown : Int
  capacityMax : Int
  participants : ParticipantsSection
  signUpTarget : String
deriving Repr, DecidableEq

/-- The content of the `activities-container` element: either a list of
appended cards or literal error markup written via `innerHTML`. -/
inductive ContainerState where
  | cards (cs : List Card)
  | errorText (msg : String)
deriving Repr, DecidableEq

/-- `details.participants && details.participants.length > 0 ? <ul>…</ul>
: <p class="no-participants">…</p>`.  A missing `participants` field is
falsy, so it also yields the placeholder. -/
def participantsSection (d : Activity) : ParticipantsSection :=
  match d.participants with
  | some ps => if ps.length > 0 then .list ps else .placeholder
  | none => .placeholder

/-- The capacity numerator `details.current_participants ||
details.participants.length`.  JavaScript `||` takes the left operand when
it is truthy (a number other than 0); otherwise it evaluates
`details.participants.length`, which throws a `TypeError` (modelled as
`.error ()`) when `participants` is `undefined`. -/
def capacityValue (d : Activity) : Except Unit Int :=
  match d.current_participants with
  | some n =>
    if n = 0 then
      match d.participants with
      | some ps => .ok (ps.length : Int)
      | none => .error ()
    else .ok n
  | none =>
    match d.participants with
    | some ps => .ok (ps.length : Int)
    | none => .error ()

/-- Build one activity card: the loop body of `displayActivities`.  The
participants section is computed first (it never throws); filling the
`innerHTML` template then evaluates the capacity expression, which can
throw. -/
def renderCard (name : String) (d : Activity) : Except Unit Card :=
  let psec := participantsSection d
  match capacityValue d with
  | .error e => .error e
  | .ok cap =>
    .ok { name := name, description := d.description, schedule := d.schedule,
          capacityShown := cap, capacityMax := d.max_participants,
          participants := psec, signUpTarget := name }

/-- The `for (const [name, details] of Object.entries(activities))` loop:
cards are appended one by one; if a card throws, the cards appended so far
remain and the loop aborts (second component `false`). -/
def renderAll : List (String × Activity) → List Card × Bool
  | [] => ([], true)
  | (n, d) :: rest =>
    match renderCard n d with
    | .error _ => ([], false)
    | .ok c =>
      let r := renderAll rest
      (c :: r.1, r.2)

/-- `displayActivities(activities)`: sets `innerHTML = ''` (discarding
`prior`), then appends a card per entry.  Returns the appended cards and
whether the loop completed without throwing. -/
def displayActivities (_prior : ContainerState) (acts : List (String × Activity)) :
    List Card × Bool :=
  renderAll acts

/-- Result of `fetch('/activities')` when the promise resolves: the HTTP
status, and the outcome of `response.json()` — `none` when the body is not
valid JSON (the parse throws), `some` the activities mapping otherwise. -/
structure FetchResult where
  status : Nat
  parsed : Option (List (String × Activity))
deriving Repr, DecidableEq

/-- The error markup `loadActivities` writes into the container on any
caught error. -/
def loadErrorHtml : String := "<p>Error loading activities. Please try again later.</p>"

/-- The `try` block of `loadActivities`: fetch (a `none` response is a
rejected promise, i.e. a network error), parse JSON, render.  Note that
`response.status` is never consulted. -/
def loadActivitiesBody (prior : ContainerState) (resp : Option FetchResult) :
    Except Unit (List Card) :=
  match resp with
  | none => .error ()
  | some r =>
    match r.parsed with
    | none => .error ()
    | some acts =>
      match displayActivities prior acts with
      | (cs, true) => .ok cs
      | (_, false) => .error ()

/-- `loadActivities()`: run the `try` block; the `catch` replaces the
container's content with the static error markup. -/
def loadActivities (prior : ContainerState) (resp : Option FetchResult) : ContainerState :=
  match loadActivitiesBody prior resp with
  | .ok cs => .cards cs
  | .error _ => .errorText loadErrorHtml

/-- JavaScript `String.prototype.trim` whitespace: WhiteSpace (tab, VT,
FF, space, NBSP, ZWNBSP, Unicode space separators) and LineTerminator (LF,
CR, LS, PS). -/
def isJsWhitespaceChar (c : Char) : Bool :=
  c.val = 0x20 || c.val = 0x09 || c.val = 0x0a || c.val = 0x0d ||
  c.val = 0x0b || c.val = 0x0c || c.val = 0xa0 || c.val = 0x1680 ||
  (0x2000 ≤ c.val && c.val ≤ 0x200a) || c.val = 0x2028 || c.val = 0x2029 ||
  c.val = 0x202f || c.val = 0x205f || c.val = 0x3000 || c.val = 0xfeff

/-- JavaScript `String.prototype.trim`: strip leading and trailing
JavaScript whitespace. -/
def jsTrim (s : String) : String :=
  ⟨((s.toList.dropWhile isJsWhitespaceChar).reverse.dropWhile isJsWhitespaceChar).reverse⟩

/-- JavaScript `String.prototype.includes` specialised to a single
character, as used by `email.includes('@')`. -/
def jsIncludes (s : String) (c : Char) : Bool :=
  s.toList.contains c

/-- Characters `encodeURIComponent` leaves unescaped: ASCII letters,
digits, and `- _ . ! ~ * ' ( )`. -/
def uriUnreserved (c : Char) : Bool :=
  (65 ≤ c.val && c.val ≤ 90) || (97 ≤ c.val && c.val ≤ 122) ||
  (48 ≤ c.val && c.val ≤ 57) ||
  c.val = 45 || c.val = 95 || c.val = 46 || c.val = 33 || c.val = 126 ||
  c.val = 42 || c.val = 39 || c.val = 40 || c.val = 41

/-- Upper-case hexadecimal digit for a value below 16. -/
def hexDigitUpper (n : Nat) : Char :=
  if n < 10 then Char.ofNat (48 + n) else Char.ofNat (55 + n)

/-- UTF-8 encoding of one code point, as byte values. -/
def utf8Bytes (c : Char) : List Nat :=
  let n := c.toNat
  if n < 128 then [n]
  else if n < 2048 then [192 + n / 64, 128 + n % 64]
  else if n < 65536 then [224 + n / 4096, 128 + (n / 64) % 64, 128 + n % 64]
  else [240 + n / 262144, 128 + (n / 4096) % 64, 128 + (n / 64) % 64, 128 + n % 64]

/-- `%XY` escape of one byte, upper-case hex. -/
def percentEncodeByte (b : Nat) : List Char :=
  ['%', hexDigitUpper (b / 16), hexDigitUpper (b % 16)]

/-- `encodeURIComponent` on one character. -/
def encodeURIComponentChar (c : Char) : List Char :=
  if uriUnreserved c then [c] else ((utf8Bytes c).map percentEncodeByte).flatten

/-- ECMAScript `encodeURIComponent`. -/
def encodeURIComponent (s : String) : String :=
  ⟨(s.toList.map encodeURIComponentChar).flatten⟩

/-- The sign-up request URL built in `signUp`:
`/activities/${encodeURIComponent(activityName)}/signup?email=${encodeURIComponent(email)}`. -/
def signUpUrl (activityName email : String) : String :=
  "/activities/" ++ encodeURIComponent activityName ++ "/signup?email=" ++
    encodeURIComponent email

/-- Parsed JSON body of a sign-up response; the script reads `.message` on
success and `.detail` on failure. -/
structure Body where
  message : String
  detail : String
deriving Repr, DecidableEq

/-- Result of the sign-up `fetch` when the promise resolves: the HTTP
status and the outcome of `response.json()` (`none` when the body is not
valid JSON). -/
structure Resp where
  status : Nat
  body : Option Body
deriving Repr, DecidableEq

/-- Observable effects of `signUp`, in order: alerts shown, the POST
request issued, and the reload of the activity list. -/
inductive Event where
  | alerted (msg : String)
  | posted (url : String)
  | reloaded
deriving Repr, DecidableEq

/-- The `try` block of `signUp` after the fetch resolves: `response.ok`
(status in 200–299) selects the success branch (`alert(result.message)`
then `loadActivities()`) or the failure branch
(``alert(`Error: ${error.detail}`)``); in both, `response.json()` throws
when the body is not JSON. `none` stands for a rejected fetch. -/
def signUpTryBody (resp : Option Resp) : Except Unit (List Event) :=
  match resp with
  | none => .error ()
  | some r =>
    if 200 ≤ r.status ∧ r.status ≤ 299 then
      match r.body with
      | some b => .ok [.alerted b.message, .reloaded]
      | none => .error ()
    else
      match r.body with
      | some b => .ok [.alerted ("Error: " ++ b.detail)]
      | none => .error ()

/-- `signUp(activityName)`: trim the email field; alert and return on an
empty or `@`-less email; otherwise POST and handle the response, the
`catch` showing the generic error alert. -/
def signUp (activityName emailField : String) (resp : Option Resp) : List Event :=
  if jsTrim emailField = "" then
    [.alerted "Please enter your email address"]
  else if !(jsIncludes (jsTrim emailField) '@') then
    [.alerted "Please enter a valid email address"]
  else
    Event.posted (signUpUrl activityName (jsTrim emailField)) ::
      (match signUpTryBody resp with
       | .ok evs => evs
       | .error _ => [.alerted "Error signing up. Please try again later."])

/-! ## Helper lemmas -/

/-- Precondition under which one activity card renders without throwing:
the record has a `participants` array, or a present and truthy (nonzero)
`current_participants`. -/
def renderSafe (d : Activity) : Prop :=
  d.participants.isSome = true ∨ ∃ n : Int, d.current_participants = some n ∧ n ≠ 0

lemma capacityValue_isOk_of_renderSafe (d : Activity) (h : renderSafe d) :
    ∃ v, capacityValue d = .ok v := by
  rcases h with h | ⟨n, hn, hn0⟩
  · obtain ⟨ps, hps⟩ := Option.isSome_iff_exists.mp h
    cases hc : d.current_participants with
    | none => exact ⟨(ps.length : Int), by simp [capacityValue, hc, hps]⟩
    | some m =>
      by_cases hm : m = 0
      · subst hm; exact ⟨(ps.length : Int), by simp [capacityValue, hc, hps]⟩
      · exact ⟨m, by simp [capacityValue, hc, hm]⟩
  · exact ⟨n, by simp [capacityValue, hn, hn0]⟩

lemma renderCard_eq (name : String) (d : Activity) (v : Int)
    (h : capacityValue d = .ok v) :
    renderCard name d =
      .ok ⟨name, d.description, d.schedule, v, d.max_participants,
           participantsSection d, name⟩ := by
  simp [renderCard, h]

lemma renderAll_spec (acts : List (String × Activity))
    (h : ∀ p ∈ acts, renderSafe p.2) :
    (renderAll acts).2 = true ∧
    (renderAll acts).1.map (fun c => (c.name, c.description, c.schedule)) =
      acts.map (fun p => (p.1, p.2.description, p.2.schedule)) := by
  induction acts with
  | nil => simp [renderAll]
  | cons p rest ih =>
    obtain ⟨n, d⟩ := p
    obtain ⟨v, hv⟩ := capacityValue_isOk_of_renderSafe d (h _ (List.mem_cons_self _ _))
    have hr := renderCard_eq n d v hv
    have ih2 := ih (fun q hq => h q (List.mem_cons_of_mem _ hq))
    simp [renderAll, hr, ih2.1, ih2.2]

/-! ## C1: the capacity line -/

/-- The capacity numerator as the specification words it:
`current_participants ?? participants.length` — nullish coalescing, i.e.
`current_participants` is used whenever the field is present, including
when it is 0. -/
def specCapacityValue (d : Activity) : Except Unit Int :=
  match d.current_participants with
  | some n => .ok n
  | none =>
    match d.participants with
    | some ps => .ok (ps.length : Int)
    | none => .error ()

/-- An activity whose `current_participants` is 0 while one participant is
listed; the `||` and `??` capacity computations disagree here. -/
def zeroCurrentActivity : Activity :=
  { description := "Learn chess", schedule := "Mon", max_participants := 10,
    participants := some ["a@x.com"], current_participants := some 0 }

/-- **C1, counterexample.** With `current_participants = 0` and one listed
participant the code renders capacity 1 (`0` is falsy under `||`), whereas
the claimed `current_participants ?? participants.length` computation
yields 0. -/
theorem capacity_nullish_counterexample :
    capacityValue zeroCurrentActivity = .ok 1 ∧
    specCapacityValue zeroCurrentActivity = .ok 0 ∧
    capacityValue zeroCurrentActivity ≠ specCapacityValue zeroCurrentActivity ∧
    renderCard "Chess" zeroCurrentActivity =
      .ok ⟨"Chess", "Learn chess", "Mon", 1, 10, .list ["a@x.com"], "Chess"⟩ := by
  refine ⟨rfl, rfl, ?_, rfl⟩
  intro hEq
  rw [show capacityValue zeroCurrentActivity = .ok 1 from rfl,
      show specCapacityValue zeroCurrentActivity = .ok 0 from rfl] at hEq
  have := Except.ok.inj hEq
  omega

/-- **C1 (amended).** The capacity line uses JavaScript `||`: the rendered
card shows `current_participants` when that field is present and nonzero,
and shows `participants.length` when the field is absent or equals 0. -/
theorem capacity_line_uses_js_or (name : String) (d : Activity) :
    (∀ n : Int, d.current_participants = some n → n ≠ 0 →
      renderCard name d =
        .ok ⟨name, d.description, d.schedule, n, d.max_participants,
             participantsSection d, name⟩) ∧
    (∀ ps : List String, d.participants = some ps →
      d.current_participants = none ∨ d.current_participants = some 0 →
      renderCard name d =
        .ok ⟨name, d.description, d.schedule, (ps.length : Int), d.max_participants,
             participantsSection d, name⟩) := by
  constructor
  · intro n hn hn0
    exact renderCard_eq name d n (by simp [capacityValue, hn, hn0])
  · intro ps hps hc
    refine renderCard_eq name d _ ?_
    rcases hc with hc | hc <;> simp [capacityValue, hc, hps]

/-- Witness for `capacity_line_uses_js_or` at concrete activities. -/
theorem capacity_line_uses_js_or_witness :
    renderCard "Chess" ⟨"d", "s", 12, some ["a@x.com"], some 5⟩ =
      .ok ⟨"Chess", "d", "s", 5, 12, .list ["a@x.com"], "Chess"⟩ ∧
    renderCard "Art" ⟨"d2", "s2", 8, some ["a@x.com", "b@x.com"], none⟩ =
      .ok ⟨"Art", "d2", "s2", 2, 8, .list ["a@x.com", "b@x.com"], "Art"⟩ := by
  constructor
  · have h := (capacity_line_uses_js_or "Chess" ⟨"d", "s", 12, some ["a@x.com"], some 5⟩).1
      5 rfl (by decide)
    simpa using h
  · have h := (capacity_line_uses_js_or "Art" ⟨"d2", "s2", 8, some ["a@x.com", "b@x.com"], none⟩).2
      ["a@x.com", "b@x.com"] rfl (Or.inl rfl)
    simpa using h

/-! ## C6, C7, C9: rendering -/

/-- **C6.** `displayActivities` clears prior content (the result does not
depend on it) and, when every record has a `participants` array as the
data model requires, completes without throwing and renders exactly one
card per entry, each carrying that entry's name, description and
schedule. -/
theorem displayActivities_renders_each (prior : ContainerState)
    (acts : List (String × Activity))
    (h : ∀ p ∈ acts, (p.2.participants).isSome = true) :
    displayActivities prior acts = displayActivities (.cards []) acts ∧
    (displayActivities prior acts).2 = true ∧
    (displayActivities prior acts).1.length = acts.length ∧
    (displayActivities prior acts).1.map (fun c => (c.name, c.description, c.schedule)) =
      acts.map (fun p => (p.1, p.2.description, p.2.schedule)) := by
  have hs := renderAll_spec acts (fun p hp => Or.inl (h p hp))
  refine ⟨rfl, hs.1, ?_, hs.2⟩
  have hlen := congrArg List.length hs.2
  simpa using hlen

/-- Witness for `displayActivities_renders_each` on a two-activity
mapping. -/
theorem displayActivities_renders_each_witness :
    displayActivities (.errorText "old") [("Chess", ⟨"d", "s", 10, some ["a@x.com"], none⟩),
        ("Art", ⟨"d2", "s2", 8, some [], none⟩)] =
      displayActivities (.cards []) [("Chess", ⟨"d", "s", 10, some ["a@x.com"], none⟩),
        ("Art", ⟨"d2", "s2", 8, some [], none⟩)] ∧
    (displayActivities (.errorText "old") [("Chess", ⟨"d", "s", 10, some ["a@x.com"], none⟩),
        ("Art", ⟨"d2", "s2", 8, some [], none⟩)]).2 = true ∧
    (displayActivities (.errorText "old") [("Chess", ⟨"d", "s", 10, some ["a@x.com"], none⟩),
        ("Art", ⟨"d2", "s2", 8, some [], none⟩)]).1.length = 2 := by
  have h := displayActivities_renders_each (.errorText "old")
    [("Chess", ⟨"d", "s", 10, some ["a@x.com"], none⟩),
     ("Art", ⟨"d2", "s2", 8, some [], none⟩)]
    (by intro p hp
        rcases List.mem_cons.mp hp with rfl | hp2
        · rfl
        · rcases List.mem_cons.mp hp2 with rfl | hp3
          · rfl
          · cases hp3)
  exact ⟨h.1, h.2.1, h.2.2.1⟩

/-- **C7.** An activity with an empty participants list renders a card
whose participants section is the placeholder, never a list element. -/
theorem empty_participants_renders_placeholder (name : String) (d : Activity)
    (h : d.participants = some []) :
    participantsSection d = .placeholder ∧
    ∃ c, renderCard name d = .ok c ∧ c.participants = .placeholder ∧
      ∀ es, c.participants ≠ .list es := by
  have hps : participantsSection d = .placeholder := by simp [participantsSection, h]
  have hcap : ∃ v, capacityValue d = .ok v := by
    cases hc : d.current_participants with
    | none => exact ⟨0, by simp [capacityValue, hc, h]⟩
    | some n =>
      by_cases hn : n = 0
      · subst hn; exact ⟨0, by simp [capacityValue, hc, h]⟩
      · exact ⟨n, by simp [capacityValue, hc, hn]⟩
  obtain ⟨v, hv⟩ := hcap
  refine ⟨hps, _, renderCard_eq name d v hv, hps, ?_⟩
  intro es
  rw [show (Card.mk name d.description d.schedule v d.max_participants
        (participantsSection d) name).participants = participantsSection d from rfl, hps]
  intro hcontr
  cases hcontr

/-- Witness for `empty_participants_renders_placeholder` at a concrete
activity with an empty roster. -/
theorem empty_participants_renders_placeholder_witness :
    participantsSection ⟨"d", "s", 10, some [], none⟩ = .placeholder ∧
    ∃ c, renderCard "Chess" ⟨"d", "s", 10, some [], none⟩ = .ok c ∧
      c.participants = .placeholder ∧ ∀ es, c.participants ≠ .list es :=
  empty_participants_renders_placeholder "Chess" ⟨"d", "s", 10, some [], none⟩ rfl

/-- An activity record as a JavaScript caller could supply it, with no
`participants` field and no `current_participants` field. -/
def noParticipantsField : Activity :=
  { description := "d", schedule := "s", max_participants := 10,
    participants := none, current_participants := none }

/-- **C9.** Rendering is total exactly under the precondition that every
record has a `participants` array or a truthy `current_participants`; on a
record with neither, the capacity expression throws (so the `renderAll`
loop aborts), even though the participants-section branch alone tolerates
the missing field by producing the placeholder. -/
theorem displayActivities_total_iff_safe :
    (∀ acts : List (String × Activity), (∀ p ∈ acts, renderSafe p.2) →
      (renderAll acts).2 = true) ∧
    capacityValue noParticipantsField = .error () ∧
    renderCard "Chess" noParticipantsField = .error () ∧
    participantsSection noParticipantsField = .placeholder ∧
    (displayActivities (.cards []) [("Chess", noParticipantsField)]).2 = false :=
  ⟨fun acts h => (renderAll_spec acts h).1, rfl, rfl, rfl, rfl⟩

/-- Witness for `displayActivities_total_iff_safe`, discharging the safety
precondition on a concrete singleton list. -/
theorem displayActivities_total_iff_safe_witness :
    (renderAll [("Chess", Activity.mk "d" "s" 10 (some ["a@x.com"]) none)]).2 = true ∧
    renderCard "Chess" noParticipantsField = .error () := by
  constructor
  · exact displayActivities_total_iff_safe.1
      [("Chess", Activity.mk "d" "s" 10 (some ["a@x.com"]) none)]
      (by intro p hp
          obtain rfl := List.mem_singleton.mp hp
          exact Or.inl rfl)
  · exact displayActivities_total_iff_safe.2.2.1

/-! ## C2: loadActivities and response status -/

/-- A 500 response whose body nevertheless parses as a JSON activities
mapping. -/
def status500Fetch : FetchResult :=
  { status := 500,
    parsed := some [("Chess", ⟨"Learn chess", "Mon", 10, some ["a@x.com"], none⟩)] }

/-- **C2, counterexample.** `loadActivities` never consults the response
status: a 500 response whose body parses as JSON is rendered as an
activity card, not replaced by the static error message. -/
theorem loadActivities_renders_non2xx :
    loadActivities (.cards []) (some status500Fetch) =
      .cards [⟨"Chess", "Learn chess", "Mon", 1, 10, .list ["a@x.com"], "Chess"⟩] ∧
    loadActivities (.cards []) (some status500Fetch) ≠ .errorText loadErrorHtml := by
  exact ⟨rfl, by decide⟩

/-- **C2 (amended).** `loadActivities` treats a rejected fetch and a
non-JSON body as failure, replacing the container with the static error
markup; the HTTP status is never consulted, so a response whose body
parses as JSON is processed identically whatever its status. -/
theorem loadActivities_failure_modes (prior : ContainerState) (status : Nat)
    (acts : List (String × Activity)) :
    loadActivities prior none = .errorText loadErrorHtml ∧
    loadActivities prior (some ⟨status, none⟩) = .errorText loadErrorHtml ∧
    loadActivities prior (some ⟨status, some acts⟩) =
      loadActivities prior (some ⟨200, some acts⟩) :=
  ⟨rfl, rfl, rfl⟩

/-! ## C3, C4, C5, C10: signUp -/

/-- **C5.** `signUp` validates in order and short-circuits: an email empty
after trimming yields only the "enter your email" alert; a non-empty email
without `@` yields only the "valid email" alert; in both cases no POST is
issued. -/
theorem signUp_validation_short_circuits (activityName emailField : String)
    (resp : Option Resp) :
    (jsTrim emailField = "" →
      signUp activityName emailField resp = [.alerted "Please enter your email address"]) ∧
    (jsTrim emailField ≠ "" → jsIncludes (jsTrim emailField) '@' = false →
      signUp activityName emailField resp = [.alerted "Please enter a valid email address"]) ∧
    ((jsTrim emailField = "" ∨ jsIncludes (jsTrim emailField) '@' = false) →
      ∀ u, Event.posted u ∉ signUp activityName emailField resp) := by
  refine ⟨?_, ?_, ?_⟩
  · intro h; simp [signUp, h]
  · intro h1 h2; simp [signUp, h1, h2]
  · intro h u
    rcases h with h | h
    · simp [signUp, h]
    · by_cases h1 : jsTrim emailField = ""
      · simp [signUp, h1]
      · simp [signUp, h1, h]

/-- Witness for `signUp_validation_short_circuits` on a whitespace-only
and an `@`-less email. -/
theorem signUp_validation_short_circuits_witness :
    signUp "Chess" "   " none = [.alerted "Please enter your email address"] ∧
    signUp "Chess" " ax.com " none = [.alerted "Please enter a valid email address"] ∧
    Event.posted "/activities/Chess/signup?email=ax.com" ∉ signUp "Chess" " ax.com " none := by
  have h := signUp_validation_short_circuits "Chess" "   " none
  have h2 := signUp_validation_short_circuits "Chess" " ax.com " none
  exact ⟨h.1 (by decide), h2.2.1 (by decide) (by decide),
    h2.2.2 (Or.inr (by decide)) "/activities/Chess/signup?email=ax.com"⟩

/-- `true` exactly on `posted` events. -/
def isPostEvent : Event → Bool
  | .posted _ => true
  | _ => false

/-- `true` exactly on the `reloaded` event. -/
def isReloadEvent : Event → Bool
  | .reloaded => true
  | _ => false

/-- **C4.** With an email that trims non-empty and contains `@`, `signUp`
issues exactly one POST, to the URL with the percent-encoded activity name
as path segment and the percent-encoded trimmed email as query value; on a
2xx JSON response it alerts the server's `message` and triggers exactly
one reload. -/
theorem signUp_success_flow (activityName emailField : String) (status : Nat) (b : Body)
    (h1 : jsTrim emailField ≠ "") (h2 : jsIncludes (jsTrim emailField) '@' = true)
    (h3 : 200 ≤ status) (h4 : status ≤ 299) :
    signUp activityName emailField (some ⟨status, some b⟩) =
      [.posted (signUpUrl activityName (jsTrim emailField)), .alerted b.message, .reloaded] ∧
    (signUp activityName emailField (some ⟨status, some b⟩)).countP isPostEvent = 1 ∧
    (signUp activityName emailField (some ⟨status, some b⟩)).countP isReloadEvent = 1 := by
  have htrace : signUp activityName emailField (some ⟨status, some b⟩) =
      [.posted (signUpUrl activityName (jsTrim emailField)), .alerted b.message, .reloaded] := by
    simp [signUp, h1, h2, signUpTryBody, h3, h4]
  refine ⟨htrace, ?_, ?_⟩ <;> rw [htrace] <;>
    simp [List.countP_cons, isPostEvent, isReloadEvent]

/-- Witness for `signUp_success_flow`: a name with a space and an email
with `@` are percent-encoded into the URL. -/
theorem signUp_success_flow_witness :
    signUp "Chess Club" " a@x.com " (some ⟨200, some ⟨"Signed up!", ""⟩⟩) =
      [.posted "/activities/Chess%20Club/signup?email=a%40x.com",
       .alerted "Signed up!", .reloaded] ∧
    (signUp "Chess Club" " a@x.com " (some ⟨200, some ⟨"Signed up!", ""⟩⟩)).countP
      isPostEvent = 1 := by
  have h := signUp_success_flow "Chess Club" " a@x.com " 200 ⟨"Signed up!", ""⟩
    (by decide) (by decide) (by decide) (by decide)
  refine ⟨?_, h.2.1⟩
  rw [h.1]
  rfl

/-- **C3, counterexample.** On a 404 sign-up response carrying
`detail = "Activity not found"`, the alert shown is
"Error: Activity not found" — the `detail` string with the `Error: `
prefix, not the `detail` string verbatim. -/
theorem signUp_detail_prefixed_counterexample :
    signUp "Chess" "a@x.com" (some ⟨404, some ⟨"", "Activity not found"⟩⟩) =
      [.posted "/activities/Chess/signup?email=a%40x.com",
       .alerted "Error: Activity not found"] ∧
    Event.alerted "Activity not found" ∉
      signUp "Chess" "a@x.com" (some ⟨404, some ⟨"", "Activity not found"⟩⟩) := by
  exact ⟨by decide, by decide⟩

/-- **C3 (amended).** On a non-2xx response with a JSON body, the alert
shown is the string `Error: ` followed by the body's `detail` field, and
no reload is triggered. -/
theorem signUp_error_shows_prefixed_detail (activityName emailField : String)
    (status : Nat) (b : Body)
    (h1 : jsTrim emailField ≠ "") (h2 : jsIncludes (jsTrim emailField) '@' = true)
    (h3 : ¬(200 ≤ status ∧ status ≤ 299)) :
    signUp activityName emailField (some ⟨status, some b⟩) =
      [.posted (signUpUrl activityName (jsTrim emailField)),
       .alerted ("Error: " ++ b.detail)] ∧
    Event.reloaded ∉ signUp activityName emailField (some ⟨status, some b⟩) := by
  have htrace : signUp activityName emailField (some ⟨status, some b⟩) =
      [.posted (signUpUrl activityName (jsTrim emailField)),
       .alerted ("Error: " ++ b.detail)] := by
    simp [signUp, h1, h2, signUpTryBody, h3]
  refine ⟨htrace, ?_⟩
  rw [htrace]
  simp

/-- Witness for `signUp_error_shows_prefixed_detail` at a 400 response. -/
theorem signUp_error_shows_prefixed_detail_witness :
    signUp "Chess" "a@x.com" (some ⟨400, some ⟨"", "Already signed up"⟩⟩) =
      [.posted (signUpUrl "Chess" (jsTrim "a@x.com")),
       .alerted ("Error: " ++ "Already signed up")] ∧
    Event.reloaded ∉ signUp "Chess" "a@x.com" (some ⟨400, some ⟨"", "Already signed up"⟩⟩) :=
  signUp_error_shows_prefixed_detail "Chess" "a@x.com" 400 ⟨"", "Already signed up"⟩
    (by decide) (by decide) (by omega)

/-- **C10.** On a 2xx response whose body is not valid JSON, the parse
throws inside the same `try` as the fetch, so `signUp` shows the generic
network-error alert instead of a confirmation and triggers no reload. -/
theorem signUp_2xx_nonjson_generic (activityName emailField : String) (status : Nat)
    (h1 : jsTrim emailField ≠ "") (h2 : jsIncludes (jsTrim emailField) '@' = true)
    (h3 : 200 ≤ status) (h4 : status ≤ 299) :
    signUp activityName emailField (some ⟨status, none⟩) =
      [.posted (signUpUrl activityName (jsTrim emailField)),
       .alerted "Error signing up. Please try again later."] ∧
    Event.reloaded ∉ signUp activityName emailField (some ⟨status, none⟩) ∧
    signUpTryBody (some ⟨status, none⟩) = .error () := by
  have hb : signUpTryBody (some ⟨status, none⟩) = .error () := by
    simp [signUpTryBody, h3, h4]
  have htrace : signUp activityName emailField (some ⟨status, none⟩) =
      [.posted (signUpUrl activityName (jsTrim emailField)),
       .alerted "Error signing up. Please try again later."] := by
    simp [signUp, h1, h2, hb]
  refine ⟨htrace, ?_, hb⟩
  rw [htrace]
  simp

/-- Witness for `signUp_2xx_nonjson_generic` at a 204 response. -/
theorem signUp_2xx_nonjson_generic_witness :
    signUp "Chess" "a@x.com" (some ⟨204, none⟩) =
      [.posted (signUpUrl "Chess" (jsTrim "a@x.com")),
       .alerted "Error signing up. Please try again later."] ∧
    Event.reloaded ∉ signUp "Chess" "a@x.com" (some ⟨204, none⟩) := by
  have h := signUp_2xx_nonjson_generic "Chess" "a@x.com" 204
    (by decide) (by decide) (by decide) (by decide)
  exact ⟨h.1, h.2.1⟩

/-! ## C8: no uncaught exception -/

/-- **C8.** No exception escapes either operation: every `signUp` path
shows an alert; whenever the sign-up `try` body throws, the `catch` yields
the generic alert after the POST; whenever the `loadActivities` body
throws, the container is set to the static error markup; and
`loadActivities` always yields either cards or that markup. -/
theorem no_uncaught_exception (activityName emailField : String) (resp : Option Resp)
    (prior : ContainerState) (fr : Option FetchResult) :
    (∃ m, Event.alerted m ∈ signUp activityName emailField resp) ∧
    (signUpTryBody resp = .error () → jsTrim emailField ≠ "" →
      jsIncludes (jsTrim emailField) '@' = true →
      signUp activityName emailField resp =
        [.posted (signUpUrl activityName (jsTrim emailField)),
         .alerted "Error signing up. Please try again later."]) ∧
    (loadActivitiesBody prior fr = .error () →
      loadActivities prior fr = .errorText loadErrorHtml) ∧
    ((∃ cs, loadActivities prior fr = .cards cs) ∨
      loadActivities prior fr = .errorText loadErrorHtml) := by
  refine ⟨?_, ?_, ?_, ?_⟩
  · by_cases h1 : jsTrim emailField = ""
    · exact ⟨"Please enter your email address", by simp [signUp, h1]⟩
    · by_cases h2 : jsIncludes (jsTrim emailField) '@' = true
      · cases hb : signUpTryBody resp with
        | error e =>
          exact ⟨"Error signing up. Please try again later.", by simp [signUp, h1, h2, hb]⟩
        | ok evs =>
          cases resp with
          | none => simp [signUpTryBody] at hb
          | some r =>
            obtain ⟨st, body⟩ := r
            cases body with
            | none =>
              by_cases hs : 200 ≤ st ∧ st ≤ 299 <;> simp [signUpTryBody, hs] at hb
            | some b =>
              by_cases hs : 200 ≤ st ∧ st ≤ 299
              · exact ⟨b.message, by simp [signUp, h1, h2, signUpTryBody, hs]⟩
              · exact ⟨"Error: " ++ b.detail, by simp [signUp, h1, h2, signUpTryBody, hs]⟩
      · exact ⟨"Please enter a valid email address", by simp [signUp, h1, h2]⟩
  · intro hb h1 h2
    simp [signUp, h1, h2, hb]
  · intro hb
    simp [loadActivities, hb]
  · cases hb : loadActivitiesBody prior fr with
    | error e => exact Or.inr (by simp [loadActivities, hb])
    | ok cs => exact Or.inl ⟨cs, by simp [loadActivities, hb]⟩

/-- Witness for `no_uncaught_exception`: a network failure on both
operations is caught and surfaced. -/
theorem no_uncaught_exception_witness :
    (∃ m, Event.alerted m ∈ signUp "Chess" " a@x.com " none) ∧
    signUp "Chess" " a@x.com " none =
      [.posted (signUpUrl "Chess" (jsTrim " a@x.com ")),
       .alerted "Error signing up. Please try again later."] ∧
    loadActivities (.cards []) none = .errorText loadErrorHtml ∧
    ((∃ cs, loadActivities (.cards []) none = .cards cs) ∨
      loadActivities (.cards []) none = .errorText loadErrorHtml) := by
  have h := no_uncaught_exception "Chess" " a@x.com " none (.cards []) none
  exact ⟨h.1, h.2.1 rfl (by decide) (by decide), h.2.2.1 rfl, h.2.2.2⟩
